import Mathlib

/-!
Verification of the load-testing client of the gunicorn/uvicorn/fastapi SSE
repository.  The Python sources under `src/load_test/` are shallowly embedded:
strings are `List Char`, floats are `ℚ`, `None` is `Option.none`, and a raised
exception that escapes a region is `Except.error`.  Wall-clock instants are
inputs of the model.
-/

namespace LoadTest

/-- Characters treated as whitespace by Python `str.strip()` (the subset that can
occur in decoded SSE lines). -/
def isPyWhitespace (c : Char) : Bool :=
  c = ' ' || c = '\t' || c = '\n' || c = '\r' || c = '\x0b' || c = '\x0c'

/-- Model of Python `str.strip()`: remove leading and trailing whitespace. -/
def pyStrip (l : List Char) : List Char :=
  ((l.dropWhile isPyWhitespace).reverse.dropWhile isPyWhitespace).reverse

/-- Auxiliary for `findSub`: index (counting from `i`) of the first occurrence of
`needle` in `hay`. -/
def findSubAux (needle : List Char) : List Char → Nat → Option Nat
  | [], i => if needle = [] then some i else none
  | c :: rest, i =>
    if needle.isPrefixOf (c :: rest) then some i else findSubAux needle rest (i + 1)

/-- Model of Python `str.find(needle)`: index of the first occurrence, `none` for
Python's `-1`. -/
def findSub (needle hay : List Char) : Option Nat :=
  findSubAux needle hay 0

/-- JSON values as produced by Python `json.loads` (numbers restricted to the
integers, which covers every payload on this wire). -/
inductive JsonVal where
  | jnull
  | jbool (b : Bool)
  | jnum (n : Int)
  | jstr (s : List Char)
  | jarr (elems : List JsonVal)
  | jobj (members : List (List Char × JsonVal))

/-- Skip JSON whitespace. -/
def skipWs : List Char → List Char
  | c :: rest =>
    if c = ' ' ∨ c = '\t' ∨ c = '\n' ∨ c = '\r' then skipWs rest else c :: rest
  | [] => []

/-- Parse the body of a JSON string after its opening double quote; returns the
decoded content and the remainder after the closing quote.  Escape handling is
the minimal one the payloads need: `\\c` stands for `c` itself except the
standard `n`, `t`, `r` escapes. -/
def parseStringBody : List Char → Option (List Char × List Char)
  | [] => none
  | '"' :: rest => some ([], rest)
  | '\\' :: c :: rest =>
    (parseStringBody rest).map fun p =>
      (((if c = 'n' then '\n' else if c = 't' then '\t' else if c = 'r' then '\r' else c)) :: p.1, p.2)
  | c :: rest => (parseStringBody rest).map fun p => (c :: p.1, p.2)

/-- Parse an optionally signed run of decimal digits. -/
def parseIntLit (s : List Char) : Option (Int × List Char) :=
  let (neg, s') := match s with
    | '-' :: rest => (true, rest)
    | _ => (false, s)
  let digits := s'.takeWhile Char.isDigit
  let rest := s'.dropWhile Char.isDigit
  if digits = [] then none
  else
    let n : Nat := digits.foldl (fun acc c => acc * 10 + (c.toNat - '0'.toNat)) 0
    some (if neg then -(n : Int) else (n : Int), rest)

mutual

/-- Fuel-indexed recursive-descent parser modelling Python `json.loads` on the
fragment used by this wire protocol. -/
def parseVal : Nat → List Char → Option (JsonVal × List Char)
  | 0, _ => none
  | fuel + 1, s =>
    match skipWs s with
    | [] => none
    | '"' :: rest => (parseStringBody rest).map fun p => (JsonVal.jstr p.1, p.2)
    | '{' :: rest =>
      (match skipWs rest with
       | '}' :: r2 => some (JsonVal.jobj [], r2)
       | other => parseMembers fuel other [])
    | '[' :: rest =>
      (match skipWs rest with
       | ']' :: r2 => some (JsonVal.jarr [], r2)
       | other => parseElems fuel other [])
    | 't' :: 'r' :: 'u' :: 'e' :: rest => some (JsonVal.jbool true, rest)
    | 'f' :: 'a' :: 'l' :: 's' :: 'e' :: rest => some (JsonVal.jbool false, rest)
    | 'n' :: 'u' :: 'l' :: 'l' :: rest => some (JsonVal.jnull, rest)
    | other => (parseIntLit other).map fun p => (JsonVal.jnum p.1, p.2)

/-- Parse the members of a JSON object after its opening brace (nonempty case). -/
def parseMembers (fuel : Nat) (s : List Char) (acc : List (List Char × JsonVal)) :
    Option (JsonVal × List Char) :=
  match fuel with
  | 0 => none
  | fuel + 1 =>
    match skipWs s with
    | '"' :: rest =>
      match parseStringBody rest with
      | none => none
      | some (key, r1) =>
        match skipWs r1 with
        | ':' :: r2 =>
          match parseVal fuel r2 with
          | none => none
          | some (v, r3) =>
            (match skipWs r3 with
             | ',' :: r4 => parseMembers fuel r4 (acc ++ [(key, v)])
             | '}' :: r4 => some (JsonVal.jobj (acc ++ [(key, v)]), r4)
             | _ => none)
        | _ => none
    | _ => none

/-- Parse the elements of a JSON array after its opening bracket (nonempty case). -/
def parseElems (fuel : Nat) (s : List Char) (acc : List JsonVal) :
    Option (JsonVal × List Char) :=
  match fuel with
  | 0 => none
  | fuel + 1 =>
    match parseVal fuel s with
    | none => none
    | some (v, r1) =>
      (match skipWs r1 with
       | ',' :: r2 => parseElems fuel r2 (acc ++ [v])
       | ']' :: r2 => some (JsonVal.jarr (acc ++ [v]), r2)
       | _ => none)

end

/-- Model of Python `json.loads`: the whole input must be one JSON value
surrounded only by whitespace. -/
def jsonLoads (s : List Char) : Option JsonVal :=
  match parseVal (s.length + 1) s with
  | some (v, rest) => if skipWs rest = [] then some v else none
  | none => none

/-- Model of Python `dict.get` on a decoded JSON object: last binding of a key
wins, as in a Python `dict` built by `json.loads`. -/
def jget (members : List (List Char × JsonVal)) (key : List Char) : Option JsonVal :=
  (members.reverse.find? fun p => p.1 = key).map (·.2)

/-! ### `TestMetrics` (src/load_test/client.py, lines 15–88) -/

/-- One entry of `TestMetrics.errors` (client.py lines 62–69). -/
structure ErrorRecord where
  error : List Char
  kind : List Char
  request_data : Option (List Char)
  timestamp : ℚ

/-- The `TestMetrics` dataclass (client.py lines 15–28).  `min_response_time`
starts at `float("inf")`, modelled by `none`; every other float field is a `ℚ`.
`start_time`/`end_time` start as Python `None`. -/
structure TestMetrics where
  total_requests : Nat := 0
  successful_requests : Nat := 0
  failed_requests : Nat := 0
  total_response_time : ℚ := 0
  min_response_time : Option ℚ := none
  max_response_time : ℚ := 0
  response_times : List ℚ := []
  errors : List ErrorRecord := []
  start_time : Option ℚ := none
  end_time : Option ℚ := none

/-- A freshly constructed `TestMetrics()`. -/
def initMetrics : TestMetrics := {}

/-- `TestMetrics.average_response_time` (client.py lines 30–35). -/
def average_response_time (m : TestMetrics) : ℚ :=
  if m.response_times = [] then 0
  else m.response_times.sum / m.response_times.length

/-- `TestMetrics.success_rate` (client.py lines 37–42). -/
def success_rate (m : TestMetrics) : ℚ :=
  if m.total_requests = 0 then 0
  else ((m.successful_requests : ℚ) / (m.total_requests : ℚ)) * 100

/-- `TestMetrics.throughput` (client.py lines 44–50).  Python's
`if not self.start_time or not self.end_time` is truthiness, so a time equal to
`0.0` takes the zero branch exactly as `None` does. -/
def throughput (m : TestMetrics) : ℚ :=
  match m.start_time, m.end_time with
  | some s, some e =>
    if s = 0 ∨ e = 0 then 0
    else if 0 < e - s then (m.total_requests : ℚ) / (e - s) else 0
  | _, _ => 0

/-- `TestMetrics.add_response_time` (client.py lines 52–57): append the sample
and update the running sum, min and max (`min(inf, t) = t`, so `none` becomes
`some t`). -/
def add_response_time (m : TestMetrics) (t : ℚ) : TestMetrics :=
  { m with
    response_times := m.response_times ++ [t]
    total_response_time := m.total_response_time + t
    min_response_time := some (match m.min_response_time with
      | none => t
      | some v => min v t)
    max_response_time := max m.max_response_time t }

/-- `TestMetrics.add_error` (client.py lines 59–69): increment the failed
counter and append one error record. -/
def add_error (m : TestMetrics) (msg kind : List Char)
    (reqData : Option (List Char)) (ts : ℚ) : TestMetrics :=
  { m with
    failed_requests := m.failed_requests + 1
    errors := m.errors ++ [⟨msg, kind, reqData, ts⟩] }

/-- The mutations the load-test code performs on a `TestMetrics` instance:
its two methods plus the direct field updates in `ChatBotLoadTester`
(`total_requests += 1` line 117, `successful_requests += 1` line 190,
`start_time`/`end_time` assignments in the runners). -/
inductive MetricsOp where
  | incTotal
  | incSuccess
  | addResponseTime (t : ℚ)
  | addError (msg kind : List Char) (reqData : Option (List Char)) (ts : ℚ)
  | setStart (t : ℚ)
  | setEnd (t : ℚ)

/-- Apply one `MetricsOp`. -/
def applyOp (m : TestMetrics) : MetricsOp → TestMetrics
  | .incTotal => { m with total_requests := m.total_requests + 1 }
  | .incSuccess => { m with successful_requests := m.successful_requests + 1 }
  | .addResponseTime t => add_response_time m t
  | .addError msg kind rd ts => add_error m msg kind rd ts
  | .setStart t => { m with start_time := some t }
  | .setEnd t => { m with end_time := some t }

/-- Apply a sequence of `MetricsOp`s in order. -/
def applyOps (m : TestMetrics) (ops : List MetricsOp) : TestMetrics :=
  ops.foldl applyOp m

/-! ### SSE stream processing of `ChatBotLoadTester.send_single_request`
(src/load_test/client.py, lines 109–212) -/

/-- The accumulator of the `async for line in response.content` loop
(client.py lines 134–137). -/
structure StreamAcc where
  full_response : List Char := []
  event_count : Nat := 0
  last_message : List Char := []
  received_complete_event : Bool := false

/-- The initial accumulator. -/
def initAcc : StreamAcc := {}

/-- The `type` value of a decoded payload, when it is a JSON string. -/
def payloadType (members : List (List Char × JsonVal)) : Option (List Char) :=
  match jget members "type".toList with
  | some (JsonVal.jstr s) => some s
  | _ => none

/-- Process one line of the stream (client.py lines 139–168).  `Except.error`
carries the accumulator at the point where an exception not caught by the
per-frame `except (json.JSONDecodeError, ValueError)` escapes to the outer
handler: `data.get` on a non-dict payload (AttributeError) or
`full_response += content` with a non-string content (TypeError).  In both
cases `event_count` has already been incremented. -/
def processLine (acc : StreamAcc) (line : List Char) : Except StreamAcc StreamAcc :=
  if line = [] then .ok acc
  else
    let lineStr := pyStrip line
    if ("data: ".toList).isPrefixOf lineStr then
      let dataPart := lineStr.drop 6
      match findSub "data='".toList dataPart with
      | none => .ok acc
      | some j0 =>
        let jsonStart := j0 + 6
        match findSub "'".toList (dataPart.drop jsonStart) with
        | none => .ok acc
        | some k =>
          let jsonStr := (dataPart.drop jsonStart).take k
          match jsonLoads jsonStr with
          | none => .ok acc
          | some v =>
            let acc1 : StreamAcc := { acc with event_count := acc.event_count + 1 }
            match v with
            | JsonVal.jobj members =>
              let ty := payloadType members
              match jget members "content".toList with
              | some (JsonVal.jstr c) =>
                let isTerminal := ty = some "complete".toList ∨ ty = some "completed".toList
                .ok { acc1 with
                  last_message := if isTerminal then c else acc1.last_message
                  received_complete_event := acc1.received_complete_event || isTerminal
                  full_response := acc1.full_response ++ c }
              | none =>
                let isTerminal := ty = some "complete".toList ∨ ty = some "completed".toList
                .ok { acc1 with
                  last_message := if isTerminal then [] else acc1.last_message
                  received_complete_event := acc1.received_complete_event || isTerminal }
              | some _ => .error acc1
            | _ => .error acc1
    else .ok acc

/-- Fold `processLine` over the stream; an escaping exception aborts the loop. -/
def processLines (acc : StreamAcc) : List (List Char) → Except StreamAcc StreamAcc
  | [] => .ok acc
  | l :: rest =>
    match processLine acc l with
    | .ok acc' => processLines acc' rest
    | .error a => .error a

/-- The dictionary `send_single_request` returns.  `event_count` is `none` on
the generic exception branch (client.py lines 207–212), which has no such key. -/
structure RequestOutcome where
  success : Bool
  response_time : ℚ
  event_count : Option Nat
  error : Option (List Char)

/-- The error message of the incomplete-stream branch (client.py line 175). -/
def incompleteMsg : List Char := "Incomplete SSE response".toList

/-- `ChatBotLoadTester.send_single_request` (client.py lines 109–212) as a
state transformer on `TestMetrics`.  Inputs of the model: the HTTP status, the
decoded stream lines, the measured response time `rt`, and the wall-clock
instant `now` stamped on error records.  The total counter is incremented
before the network call; a non-200 status raises, landing in the outer handler;
otherwise the stream is processed and classified by
`if event_count == 0 or not last_message`. -/
def send_single_request (status : Nat) (lines : List (List Char)) (rt now : ℚ)
    (m : TestMetrics) : RequestOutcome × TestMetrics :=
  let m1 := { m with total_requests := m.total_requests + 1 }
  if status ≠ 200 then
    (⟨false, rt, none, some "HTTP error".toList⟩,
     add_error m1 "HTTP error".toList "Exception".toList none now)
  else
    match processLines initAcc lines with
    | .error _ =>
      (⟨false, rt, none, some "stream exception".toList⟩,
       add_error m1 "stream exception".toList "Exception".toList none now)
    | .ok acc =>
      if acc.event_count = 0 ∨ acc.last_message = [] then
        (⟨false, rt, some acc.event_count, some incompleteMsg⟩,
         add_error m1 incompleteMsg "Exception".toList none now)
      else
        (⟨true, rt, some acc.event_count, none⟩,
         { add_response_time m1 rt with
           successful_requests := m1.successful_requests + 1 })

/-! ### `SimpleChatClient.send_message` (src/load_test/simple_client.py, lines 25–75) -/

/-- The accumulator of the `for line in response.iter_lines()` loop
(simple_client.py lines 49–51). -/
structure SimpleAcc where
  full_content : List Char := []
  event_count : Nat := 0
  conversation_id : Option JsonVal := none

/-- The initial accumulator of the simple client. -/
def simpleInit : SimpleAcc := {}

/-- One line of the simple client's loop (simple_client.py lines 53–68): a
compact inline-JSON data line; only `json.JSONDecodeError` is caught, so a
non-dict payload (AttributeError at `data.get`) or a non-string content
(TypeError at `full_content += content`) escapes `send_message` entirely. -/
def simpleProcessLine (acc : SimpleAcc) (line : List Char) : Except Unit SimpleAcc :=
  if line = [] then .ok acc
  else if ("data: ".toList).isPrefixOf line then
    match jsonLoads (line.drop 6) with
    | none => .ok acc
    | some v =>
      let acc1 : SimpleAcc := { acc with event_count := acc.event_count + 1 }
      match v with
      | JsonVal.jobj members =>
        let ty := payloadType members
        if ty = some "connected".toList then
          .ok { acc1 with conversation_id := jget members "conversation_id".toList }
        else if ty = some "partial_response".toList ∨ ty = some "complete".toList then
          match jget members "content".toList with
          | none => .ok acc1
          | some (JsonVal.jstr c) => .ok { acc1 with full_content := acc1.full_content ++ c }
          | some _ => .error ()
        else .ok acc1
      | _ => .error ()
  else .ok acc

/-- Fold `simpleProcessLine` over the stream. -/
def simpleProcessLines (acc : SimpleAcc) : List (List Char) → Except Unit SimpleAcc
  | [] => .ok acc
  | l :: rest =>
    match simpleProcessLine acc l with
    | .ok a => simpleProcessLines a rest
    | .error e => .error e

/-- The dictionary `send_message` returns. -/
structure SimpleOutcome where
  success : Bool
  conversation_id : Option JsonVal := none
  content : List Char := []
  event_count : Nat := 0
  error : Option (List Char) := none

/-- `SimpleChatClient.send_message` (simple_client.py lines 25–75): a non-200
status returns a failure dictionary; otherwise the stream is folded and the
result is always `success: True`. -/
def send_message (status : Nat) (lines : List (List Char)) : Except Unit SimpleOutcome :=
  if status ≠ 200 then .ok { success := false, error := some "HTTP error".toList }
  else
    (simpleProcessLines simpleInit lines).map fun acc =>
      { success := true
        conversation_id := acc.conversation_id
        content := acc.full_content
        event_count := acc.event_count }

/-- How many frames `send_single_request`'s loop counts on a single line
(including a count recorded just before an escaping exception). -/
def loadTesterFrameCount (line : List Char) : Nat :=
  match processLine initAcc line with
  | .ok a => a.event_count
  | .error a => a.event_count

/-! ### Dispatcher counter discipline (client.py lines 109–212) as a step
relation, for the interleaving invariant -/

/-- The shared counters of the one `TestMetrics` instance, plus the number of
requests that have passed the `total_requests += 1` at line 117 but have not
yet reached a verdict (success increment at line 190, or an `add_error` call at
line 176 or 204). -/
structure DispatchState where
  total : Nat
  successful : Nat
  failed : Nat
  inflight : Nat

/-- One atomic counter update of some request, in any interleaving.  A request
increments the total counter before its network call, and each verdict
increments exactly one of the other two counters at most once; a cancelled
request may simply never reach a verdict. -/
inductive DispatchStep : DispatchState → DispatchState → Prop
  | start (t s f i : Nat) : DispatchStep ⟨t, s, f, i⟩ ⟨t + 1, s, f, i + 1⟩
  | finishSuccess (t s f i : Nat) : DispatchStep ⟨t, s, f, i + 1⟩ ⟨t, s + 1, f, i⟩
  | finishFailure (t s f i : Nat) : DispatchStep ⟨t, s, f, i + 1⟩ ⟨t, s, f + 1, i⟩

/-- States reachable from a fresh `TestMetrics` by any interleaving of
dispatcher counter updates. -/
def DispatchReachable (st : DispatchState) : Prop :=
  Relation.ReflTransGen DispatchStep ⟨0, 0, 0, 0⟩ st

/-! ### `ChatBotLoadTester.run_ramp_up_test` timing (client.py lines 275–321) -/

/-- The inter-worker-start delay computed at lines 306–307: `ramp_up_duration /
max_concurrency` when `ramp_up_duration > 0`, and no sleep at all otherwise. -/
def rampDelay (maxc : Nat) (ramp : ℚ) : ℚ :=
  if 0 < ramp then ramp / (maxc : ℚ) else 0

/-- Start instants of the ramp loop (lines 301–308): each iteration starts one
worker at the current instant, then sleeps `delay`. -/
def rampStartTimesAux (delay : ℚ) : Nat → ℚ → List ℚ
  | 0, _ => []
  | n + 1, now => now :: rampStartTimesAux delay n (now + delay)

/-- Start instants of the `max_concurrency` workers, measured from run start. -/
def rampStartTimes (maxc : Nat) (ramp : ℚ) : List ℚ :=
  rampStartTimesAux (rampDelay maxc ramp) maxc 0

/-- The instant at which the ramp loop finishes (after its last sleep). -/
def rampLoopEnd (delay : ℚ) : Nat → ℚ → ℚ
  | 0, now => now
  | n + 1, now => rampLoopEnd delay n (now + delay)

/-- `asyncio.sleep` returns immediately on a negative delay. -/
def sleepFor (d : ℚ) : ℚ := max d 0

/-- The instant, measured from run start, at which line 311's
`await asyncio.sleep(duration - ramp_up_duration)` returns and the tasks are
cancelled (lines 313–315). -/
def cancel_time (maxc : Nat) (ramp dur : ℚ) : ℚ :=
  rampLoopEnd (rampDelay maxc ramp) maxc 0 + sleepFor (dur - ramp)

/-- Request-issue instants of one worker (lines 292–298): starting at instant
`now` (measured from run start), the worker issues a request whenever the
elapsed time is still below `duration`, then advances by that request's latency
plus the fixed one-unit sleep.  The latency list bounds how many iterations the
model observes. -/
def workerIssueTimes (dur : ℚ) : List ℚ → ℚ → List ℚ
  | [], _ => []
  | lat :: rest, now =>
    if now < dur then now :: workerIssueTimes dur rest (now + lat + 1)
    else []

/-! ### `RampUpLoadTester` phase controller (src/load_test/ramp_up_test.py,
lines 241–377) -/

/-- One configured test phase (ramp_up_test.py lines 294–304). -/
structure Phase where
  concurrency : Nat
  duration : Nat
  deriving DecidableEq

/-- Observable events of the controller loop: running one phase, or the
fixed inter-phase rest (10 one-second sleeps, lines 359–366). -/
inductive PhaseEvent where
  | runPhase (p : Phase)
  | rest (seconds : Nat)
  deriving DecidableEq

/-- The fields of a phase result consulted by `should_stop_test`. -/
structure PhaseResult where
  end_cpu_idle : ℚ
  success_rate : ℚ
  avg_response_time : ℚ
  end_memory_percent : ℚ

/-- `RampUpLoadTester.should_stop_test` (ramp_up_test.py lines 241–281):
advisory only; true when any threshold trips. -/
def should_stop_test (cur : PhaseResult) (prev : Option PhaseResult) : Bool :=
  decide (cur.end_cpu_idle < 30) || decide (cur.success_rate < 95) ||
    (match prev with
     | some p => decide (p.avg_response_time * 2 < cur.avg_response_time)
     | none => false) ||
    decide (90 < cur.end_memory_percent)

/-- The phase loop of `run_ramp_up_test` (ramp_up_test.py lines 331–368),
abstracted over how a phase produces its result.  Per phase: run it, fold the
advisory verdict into the `performance_limit_reached` flag, break after the
last phase, otherwise rest 10 seconds and carry the result as
`previous_result`.  Returns the event trace and the final flag. -/
def run_phase_sequence {α : Type} (runner : Phase → α)
    (stop : α → Option α → Bool) (prev : Option α) (flag : Bool) :
    List Phase → List PhaseEvent × Bool
  | [] => ([], flag)
  | p :: rest =>
    let r := runner p
    let flag1 := flag || stop r prev
    if rest = [] then ([PhaseEvent.runPhase p], flag1)
    else
      let next := run_phase_sequence runner stop (some r) flag1 rest
      (PhaseEvent.runPhase p :: PhaseEvent.rest 10 :: next.1, next.2)

/-- The intended trace shape: every configured phase in order, a 10-unit rest
between consecutive phases, none after the last. -/
def interleaveRests : List Phase → List PhaseEvent
  | [] => []
  | [p] => [PhaseEvent.runPhase p]
  | p :: q :: rest =>
    PhaseEvent.runPhase p :: PhaseEvent.rest 10 :: interleaveRests (q :: rest)

/-- The phases a trace actually runs, in order. -/
def phasesOf : List PhaseEvent → List Phase
  | [] => []
  | PhaseEvent.runPhase p :: rest => p :: phasesOf rest
  | PhaseEvent.rest _ :: rest => phasesOf rest

/-! ### Spec-side helpers and concrete inputs -/

/-- Minimum of a sample list (head-seeded fold). -/
def listMin : List ℚ → ℚ
  | [] => 0
  | x :: xs => xs.foldl min x

/-- Maximum of a sample list (head-seeded fold). -/
def listMax : List ℚ → ℚ
  | [] => 0
  | x :: xs => xs.foldl max x

/-- Metrics after recording a sequence of response-time samples on a fresh
instance. -/
def recordSamples (ts : List ℚ) : TestMetrics :=
  ts.foldl add_response_time initMetrics

/-- A verbose-form stream line carrying a `complete` frame with content `hi`. -/
def goodLine : List Char :=
  ("data: event='message' data='\x7b\"type\": \"complete\", \"content\": \"hi\"\x7d'\n").toList

/-- A verbose-form stream line whose embedded payload is valid JSON but not an
object: `json.loads` yields the integer 5, `event_count` is incremented, and
the following `data.get("type")` raises AttributeError. -/
def badPayloadLine : List Char :=
  ("data: event='message' data='5'\n").toList

/-- A compact inline-JSON stream line carrying a `complete` frame with content
`ok` — the form the simple client parses and the load tester does not. -/
def compactLine : List Char :=
  ("data: \x7b\"type\": \"complete\", \"content\": \"ok\"\x7d").toList

/-! ## Theorems -/

theorem applyOp_failed_eq_errors (m : TestMetrics)
    (h : m.failed_requests = m.errors.length) (op : MetricsOp) :
    (applyOp m op).failed_requests = (applyOp m op).errors.length := by
  cases op <;> simp [applyOp, add_error, add_response_time, h]

theorem applyOps_failed_eq_errors (ops : List MetricsOp) (m : TestMetrics)
    (h : m.failed_requests = m.errors.length) :
    (applyOps m ops).failed_requests = (applyOps m ops).errors.length := by
  induction ops generalizing m with
  | nil => simpa [applyOps]
  | cons op rest ih =>
    simp only [applyOps, List.foldl_cons] at *
    exact ih (applyOp m op) (applyOp_failed_eq_errors m h op)

/-- C10: after any sequence of the metrics operations the load-test code
performs, `failed_requests` equals the length of the `errors` list — `add_error`
is the only operation touching either, and it bumps both together. -/
theorem c10_failed_matches_errors (ops : List MetricsOp) :
    (applyOps initMetrics ops).failed_requests = (applyOps initMetrics ops).errors.length :=
  applyOps_failed_eq_errors ops initMetrics rfl

theorem dispatch_invariant_aux (st : DispatchState) (h : DispatchReachable st) :
    st.successful + st.failed + st.inflight = st.total := by
  induction h with
  | refl => rfl
  | tail _ step ih => cases step <;> simp_all <;> omega

/-- C2: in every state reachable by any interleaving of dispatcher counter
updates (total increment before the network call, then at most one verdict
per request), `successful_requests + failed_requests ≤ total_requests`. -/
theorem c2_counter_invariant (st : DispatchState) (h : DispatchReachable st) :
    st.successful + st.failed ≤ st.total := by
  have := dispatch_invariant_aux st h
  omega

/-- Witness for C2 at a concrete reachable state: one request started and
finished successfully. -/
theorem c2_counter_invariant_witness :
    (⟨1, 1, 0, 0⟩ : DispatchState).successful + (⟨1, 1, 0, 0⟩ : DispatchState).failed ≤
      (⟨1, 1, 0, 0⟩ : DispatchState).total :=
  c2_counter_invariant ⟨1, 1, 0, 0⟩
    (Relation.ReflTransGen.tail
      (Relation.ReflTransGen.tail Relation.ReflTransGen.refl (DispatchStep.start 0 0 0 0))
      (DispatchStep.finishSuccess 1 0 0 0))

/-- C3: `success_rate` is 0 when no request was dispatched, otherwise
`successful/total·100`, and it lies in `[0, 100]` whenever
`successful ≤ total`. -/
theorem c3_success_rate (m : TestMetrics) :
    (m.total_requests = 0 → success_rate m = 0) ∧
    (m.total_requests ≠ 0 →
      success_rate m = ((m.successful_requests : ℚ) / (m.total_requests : ℚ)) * 100) ∧
    (m.successful_requests ≤ m.total_requests →
      0 ≤ success_rate m ∧ success_rate m ≤ 100) := by
  refine ⟨fun h => by simp [success_rate, h], fun h => by simp [success_rate, h],
    fun hle => ?_⟩
  by_cases h : m.total_requests = 0
  · simp [success_rate, h]
  · have ht : (0 : ℚ) < (m.total_requests : ℚ) := by
      exact_mod_cast Nat.pos_of_ne_zero h
    have h1 : (m.successful_requests : ℚ) / (m.total_requests : ℚ) ≤ 1 := by
      rw [div_le_one ht]
      exact_mod_cast hle
    have h2 : (0 : ℚ) ≤ (m.successful_requests : ℚ) / (m.total_requests : ℚ) :=
      div_nonneg (Nat.cast_nonneg _) (le_of_lt ht)
    constructor
    · rw [success_rate, if_neg h]
      positivity
    · rw [success_rate, if_neg h]
      calc (m.successful_requests : ℚ) / (m.total_requests : ℚ) * 100
          ≤ 1 * 100 := by nlinarith
        _ = 100 := by norm_num

/-- Witness for C3: the fresh metrics instance and a 3-of-4 state. -/
theorem c3_success_rate_witness :
    success_rate initMetrics = 0 ∧
    (0 ≤ success_rate { initMetrics with total_requests := 4, successful_requests := 3 } ∧
      success_rate { initMetrics with total_requests := 4, successful_requests := 3 } ≤ 100) :=
  ⟨(c3_success_rate initMetrics).1 rfl,
   (c3_success_rate { initMetrics with total_requests := 4, successful_requests := 3 }).2.2
     (by decide)⟩

theorem run_phase_sequence_trace {α : Type} (runner : Phase → α)
    (stop : α → Option α → Bool) (phases : List Phase) :
    ∀ (prev : Option α) (flag : Bool),
      (run_phase_sequence runner stop prev flag phases).1 = interleaveRests phases := by
  induction phases with
  | nil => intro prev flag; rfl
  | cons p rest ih =>
    intro prev flag
    cases rest with
    | nil => rfl
    | cons q r =>
      show (PhaseEvent.runPhase p :: PhaseEvent.rest 10 ::
          (run_phase_sequence runner stop (some (runner p))
            (flag || stop (runner p) prev) (q :: r)).1) =
        PhaseEvent.runPhase p :: PhaseEvent.rest 10 :: interleaveRests (q :: r)
      rw [ih]

theorem phasesOf_interleaveRests (phases : List Phase) :
    phasesOf (interleaveRests phases) = phases := by
  induction phases with
  | nil => rfl
  | cons p rest ih =>
    cases rest with
    | nil => rfl
    | cons q r => simp_all [interleaveRests, phasesOf]

/-- C6: whatever results each phase produces — hence whatever
`should_stop_test` returns, including tripping on every phase — the controller
emits exactly the configured phases in their configured order with one fixed
10-unit rest between consecutive phases and none after the last. -/
theorem c6_controller_runs_all_phases (runner : Phase → PhaseResult)
    (prev : Option PhaseResult) (flag : Bool) (phases : List Phase) :
    (run_phase_sequence runner should_stop_test prev flag phases).1 =
      interleaveRests phases ∧
    phasesOf (run_phase_sequence runner should_stop_test prev flag phases).1 = phases := by
  have h := run_phase_sequence_trace runner should_stop_test phases prev flag
  exact ⟨h, by rw [h, phasesOf_interleaveRests]⟩

theorem foldl_rt_response_times (ts : List ℚ) (m : TestMetrics) :
    (ts.foldl add_response_time m).response_times = m.response_times ++ ts := by
  induction ts generalizing m with
  | nil => simp
  | cons t rest ih => simp [add_response_time, ih]

theorem foldl_rt_min_some (ts : List ℚ) (m : TestMetrics) (a : ℚ)
    (h : m.min_response_time = some a) :
    (ts.foldl add_response_time m).min_response_time = some (ts.foldl min a) := by
  induction ts generalizing m a with
  | nil => simpa
  | cons t rest ih =>
    simp only [List.foldl_cons]
    exact ih (add_response_time m t) (min a t) (by simp [add_response_time, h])

theorem foldl_rt_max (ts : List ℚ) (m : TestMetrics) :
    (ts.foldl add_response_time m).max_response_time =
      ts.foldl max m.max_response_time := by
  induction ts generalizing m with
  | nil => rfl
  | cons t rest ih => simp [add_response_time, ih]

/-- C4 counterexample: one call `add_response_time(-1)` leaves
`max_response_time` at its initial value 0, while the maximum of the recorded
samples is -1 — the running maximum is seeded with 0.0, not with the first
sample. -/
theorem c4_counterexample :
    (recordSamples [(-1 : ℚ)]).response_times = [(-1 : ℚ)] ∧
    listMax [(-1 : ℚ)] = -1 ∧
    (recordSamples [(-1 : ℚ)]).max_response_time = 0 ∧
    (0 : ℚ) ≠ -1 := by
  refine ⟨rfl, rfl, ?_, by norm_num⟩
  show max (0 : ℚ) (-1) = 0
  norm_num

/-- C4 amended: for any finite sequence of nonnegative samples,
`add_response_time` leaves the sample list equal to the sequence, the average
equal to its arithmetic mean (0 for the empty sequence), and — when the
sequence is nonempty — the running minimum and maximum equal to the minimum and
maximum of the samples. -/
theorem c4_min_max_average (ts : List ℚ) (hnn : ∀ t ∈ ts, 0 ≤ t) :
    (recordSamples ts).response_times = ts ∧
    average_response_time (recordSamples ts) =
      (if ts = [] then 0 else ts.sum / (ts.length : ℚ)) ∧
    (ts ≠ [] →
      (recordSamples ts).min_response_time = some (listMin ts) ∧
      (recordSamples ts).max_response_time = listMax ts) := by
  have hrts : (recordSamples ts).response_times = ts := by
    simpa [recordSamples, initMetrics] using foldl_rt_response_times ts initMetrics
  refine ⟨hrts, by simp [average_response_time, hrts], fun hne => ?_⟩
  match ts, hne with
  | t :: rest, _ =>
    constructor
    · have h1 : (add_response_time initMetrics t).min_response_time = some t := rfl
      simpa [recordSamples, listMin] using
        foldl_rt_min_some rest (add_response_time initMetrics t) t h1
    · have h0 : (0 : ℚ) ≤ t := hnn t (by simp)
      have h2 := foldl_rt_max rest (add_response_time initMetrics t)
      have h3 : (add_response_time initMetrics t).max_response_time = t := by
        show max (0 : ℚ) t = t
        exact max_eq_right h0
      rw [recordSamples, List.foldl_cons, h2, h3]
      rfl

/-- Witness for C4's amended claim on the samples 3, 1, 2. -/
theorem c4_min_max_average_witness :
    (recordSamples [3, 1, 2]).min_response_time = some (listMin [3, 1, 2]) ∧
    (recordSamples [3, 1, 2]).max_response_time = listMax [3, 1, 2] :=
  (c4_min_max_average [3, 1, 2] (by norm_num)).2.2 (by simp)

/-- C5 counterexample: with `start_time = 0.0`, `end_time = 5.0` and 10
requests, the times are set and `end > start`, so the claim predicts
`10 / 5 = 2`, but Python's `if not self.start_time` treats the instant 0.0 as
unset and the code returns 0. -/
theorem c5_counterexample :
    throughput { initMetrics with
      total_requests := 10, start_time := some 0, end_time := some 5 } = 0 ∧
    ¬ ((5 : ℚ) ≤ 0) ∧
    (10 : ℚ) / ((5 : ℚ) - 0) = 2 ∧
    (0 : ℚ) ≠ 2 := by
  refine ⟨rfl, by norm_num, by norm_num, by norm_num⟩

/-- C5 amended: `throughput` is 0 when either time is unset **or equal to 0.0**
(Python truthiness), and otherwise 0 for `end ≤ start` and
`total/(end − start)` for `start < end`. -/
theorem c5_throughput (m : TestMetrics) :
    ((m.start_time = none ∨ m.end_time = none ∨
        m.start_time = some 0 ∨ m.end_time = some 0) → throughput m = 0) ∧
    (∀ s e : ℚ, m.start_time = some s → m.end_time = some e → s ≠ 0 → e ≠ 0 →
      ((e ≤ s → throughput m = 0) ∧
       (s < e → throughput m = (m.total_requests : ℚ) / (e - s)))) := by
  constructor
  · intro h
    unfold throughput
    rcases hs : m.start_time with _ | s <;> rcases he : m.end_time with _ | e <;>
      simp_all
  · intro s e hs he hs0 he0
    simp only [throughput, hs, he]
    rw [if_neg (by tauto : ¬ (s = 0 ∨ e = 0))]
    constructor
    · intro hle
      rw [if_neg (by linarith : ¬ (0 : ℚ) < e - s)]
    · intro hlt
      rw [if_pos (by linarith : (0 : ℚ) < e - s)]

/-- Witness for C5's amended claim: fresh metrics give 0; times 1 and 6 with 10
requests give 2. -/
theorem c5_throughput_witness :
    throughput initMetrics = 0 ∧
    throughput { initMetrics with
      total_requests := 10, start_time := some 1, end_time := some 6 } = 2 := by
  constructor
  · exact (c5_throughput initMetrics).1 (Or.inl rfl)
  · have h := ((c5_throughput { initMetrics with
      total_requests := 10, start_time := some 1, end_time := some 6 }).2 1 6 rfl rfl
      (by norm_num) (by norm_num)).2 (by norm_num)
    rw [h]
    norm_num

theorem rampStartTimesAux_getD (d : ℚ) (n : Nat) :
    ∀ (t0 : ℚ) (i : Nat), i < n →
      (rampStartTimesAux d n t0).getD i 0 = t0 + i * d := by
  induction n with
  | zero => intro t0 i h; omega
  | succ n ih =>
    intro t0 i hi
    cases i with
    | zero => simp [rampStartTimesAux]
    | succ j =>
      have h := ih (t0 + d) j (by omega)
      simp only [rampStartTimesAux, List.getD_cons_succ, h]
      push_cast
      ring

theorem workerIssueTimes_lt (dur : ℚ) (lat : List ℚ) :
    ∀ (s : ℚ), ∀ t ∈ workerIssueTimes dur lat s, t < dur := by
  induction lat with
  | nil => intro s t ht; simp [workerIssueTimes] at ht
  | cons l rest ih =>
    intro s t ht
    by_cases h : s < dur
    · rw [workerIssueTimes, if_pos h] at ht
      rcases List.mem_cons.mp ht with h1 | h1
      · exact h1 ▸ h
      · exact ih (s + l + 1) t h1
    · rw [workerIssueTimes, if_neg h] at ht
      simp at ht

/-- C7: in a ramp run with `ramp_up_duration > 0`, consecutive worker start
instants differ by exactly `ramp_up_duration / max_concurrency`, and every
request a worker issues happens strictly before `duration` has elapsed from run
start (the loop guard `time.time() - start_time < duration` is checked before
each request). -/
theorem c7_ramp_cadence (maxc : Nat) (ramp dur : ℚ) (lat : List ℚ) (s : ℚ) (i : Nat)
    (hr : 0 < ramp) (hi : i + 1 < maxc) :
    (rampStartTimes maxc ramp).getD (i + 1) 0 - (rampStartTimes maxc ramp).getD i 0 =
      ramp / (maxc : ℚ) ∧
    ∀ t ∈ workerIssueTimes dur lat s, t < dur := by
  constructor
  · rw [rampStartTimes, rampStartTimesAux_getD _ _ _ _ hi,
      rampStartTimesAux_getD _ _ _ _ (by omega)]
    rw [rampDelay, if_pos hr]
    push_cast
    ring
  · exact workerIssueTimes_lt dur lat s

/-- Witness for C7: `max_concurrency = 10`, `ramp_up_duration = 9` gives starts
spaced 9/10 apart, and a worker starting at instant 0 with latencies 1 and 2
under `duration = 5` issues its first request before the deadline. -/
theorem c7_ramp_cadence_witness :
    (rampStartTimes 10 9).getD 1 0 - (rampStartTimes 10 9).getD 0 0 = (9 : ℚ) / 10 ∧
    (0 : ℚ) < 5 :=
  ⟨(c7_ramp_cadence 10 9 5 [1, 2] 0 0 (by norm_num) (by norm_num)).1,
   (c7_ramp_cadence 10 9 5 [1, 2] 0 0 (by norm_num) (by norm_num)).2 0 (by decide)⟩

theorem rampLoopEnd_eq (d : ℚ) (n : Nat) : ∀ t : ℚ, rampLoopEnd d n t = t + n * d := by
  induction n with
  | zero => intro t; simp [rampLoopEnd]
  | succ k ih =>
    intro t
    rw [rampLoopEnd, ih]
    push_cast
    ring

/-- C8 counterexample: with `max_concurrency = 10`, `ramp_up_duration = 4`,
`duration = 10`, the workers are cancelled at instant 10 from run start — the
ramp loop itself consumes the full `ramp_up_duration` before
`sleep(duration - ramp_up_duration)` starts — not at instant
`duration − ramp_up_duration = 6` as claimed. -/
theorem c8_counterexample :
    cancel_time 10 4 10 = 10 ∧ (10 : ℚ) ≠ 10 - 4 := by
  constructor
  · rw [cancel_time, rampLoopEnd_eq, rampDelay, sleepFor,
      if_pos (by norm_num : (0 : ℚ) < 4),
      max_eq_left (by norm_num : (0 : ℚ) ≤ 10 - 4)]
    norm_num
  · norm_num

/-- C8 amended: for `0 ≤ ramp_up_duration ≤ duration`, all active workers are
cancelled `duration` time units after run start (ramp-up spends
`ramp_up_duration`, then the controller sleeps `duration − ramp_up_duration`). -/
theorem c8_cancel_at_duration (maxc : Nat) (ramp dur : ℚ)
    (hm : 0 < maxc) (h0 : 0 ≤ ramp) (hd : ramp ≤ dur) :
    cancel_time maxc ramp dur = dur := by
  rw [cancel_time, rampLoopEnd_eq, sleepFor, max_eq_left (by linarith : (0 : ℚ) ≤ dur - ramp)]
  rcases eq_or_lt_of_le h0 with h | h
  · rw [rampDelay, if_neg (by rw [← h]; exact lt_irrefl 0), ← h]
    ring
  · rw [rampDelay, if_pos h]
    have hc : (maxc : ℚ) ≠ 0 := by
      exact_mod_cast Nat.pos_iff_ne_zero.mp hm
    field_simp

/-- Witness for C8's amended claim at `max_concurrency = 5`,
`ramp_up_duration = 2`, `duration = 7`. -/
theorem c8_cancel_at_duration_witness : cancel_time 5 2 7 = 7 :=
  c8_cancel_at_duration 5 2 7 (by norm_num) (by norm_num) (by norm_num)

/-- C9: the two stream-parsing paths disagree on the compact inline-JSON data
line `data: {"type": "complete", "content": "ok"}` — the simple client decodes
it (one frame, content accumulated, `success: True`), while
`send_single_request`, which only accepts the verbose `data='…'` embedded form,
counts zero frames and classifies the same body as a failure. -/
theorem c9_parsing_divergence :
    send_message 200 [compactLine] =
      Except.ok { success := true, conversation_id := none,
                  content := "ok".toList, event_count := 1, error := none } ∧
    loadTesterFrameCount compactLine = 0 ∧
    (send_single_request 200 [compactLine] 1 2 initMetrics).1.success = false ∧
    (send_single_request 200 [compactLine] 1 2 initMetrics).1.event_count = some 0 :=
  ⟨rfl, rfl, rfl, rfl⟩

/-- C1 amended: a 200-status dispatch is classified successful iff the stream
processing loop finishes without an escaping exception, counted at least one
frame, and left a non-empty `last_message` (the content of the last
`complete`/`completed` frame).  On success exactly one response-time sample is
appended and `successful_requests` is incremented once; on every failure
(zero frames, empty terminal content, or an escaping exception) exactly one
error record is appended instead, the total counter having been incremented
up front either way. -/
theorem c1_success_classification (lines : List (List Char)) (m : TestMetrics)
    (rt now : ℚ) :
    ((send_single_request 200 lines rt now m).1.success = true ↔
      ∃ a, processLines initAcc lines = Except.ok a ∧
        a.event_count ≠ 0 ∧ a.last_message ≠ []) ∧
    ((send_single_request 200 lines rt now m).1.success = true →
      (send_single_request 200 lines rt now m).2.response_times =
        m.response_times ++ [rt] ∧
      (send_single_request 200 lines rt now m).2.successful_requests =
        m.successful_requests + 1 ∧
      (send_single_request 200 lines rt now m).2.errors = m.errors ∧
      (send_single_request 200 lines rt now m).2.failed_requests =
        m.failed_requests ∧
      (send_single_request 200 lines rt now m).2.total_requests =
        m.total_requests + 1) ∧
    ((send_single_request 200 lines rt now m).1.success = false →
      (send_single_request 200 lines rt now m).2.errors.length =
        m.errors.length + 1 ∧
      (send_single_request 200 lines rt now m).2.failed_requests =
        m.failed_requests + 1 ∧
      (send_single_request 200 lines rt now m).2.successful_requests =
        m.successful_requests ∧
      (send_single_request 200 lines rt now m).2.response_times =
        m.response_times ∧
      (send_single_request 200 lines rt now m).2.total_requests =
        m.total_requests + 1) := by
  unfold send_single_request
  rw [if_neg (show ¬ ((200 : Nat) ≠ 200) by simp)]
  cases hp : processLines initAcc lines with
  | error a =>
    refine ⟨?_, ?_, ?_⟩
    · simp [hp]
    · intro h; simp at h
    · intro _; simp [add_error]
  | ok acc =>
    by_cases hc : acc.event_count = 0 ∨ acc.last_message = []
    · rcases hc with hc | hc <;>
        exact ⟨by simp [hc], by simp [hc], by intro _; simp [hc, add_error]⟩
    · push_neg at hc
      refine ⟨by simp [hc.1, hc.2], ?_, ?_⟩
      · intro _
        simp [hc.1, hc.2, add_response_time]
      · intro h
        simp [hc.1, hc.2] at h

/-- Witness for C1's amended claim: a stream with one well-formed verbose
`complete` frame with content `hi` is classified successful. -/
theorem c1_success_classification_witness :
    (send_single_request 200 [goodLine] 1 2 initMetrics).1.success = true :=
  (c1_success_classification [goodLine] initMetrics 1 2).1.mpr
    ⟨⟨"hi".toList, 1, "hi".toList, true⟩, rfl, by decide, by decide⟩

/-- C1 counterexample: the stream `[goodLine, badPayloadLine]` yields two
counted frames, one of them a terminal `complete` frame with the non-empty
content `hi`, so the claim's success condition holds; yet the second line's
payload (`5`, valid JSON but not an object) makes `data.get("type")` raise
AttributeError past the per-frame handler, and the request is classified
failed, with one error record. -/
theorem c1_counterexample :
    processLines initAcc [goodLine, badPayloadLine] =
      Except.error ⟨"hi".toList, 2, "hi".toList, true⟩ ∧
    (send_single_request 200 [goodLine, badPayloadLine] 1 2 initMetrics).1.success =
      false ∧
    (send_single_request 200 [goodLine, badPayloadLine] 1 2 initMetrics).2.errors.length = 1 ∧
    (send_single_request 200 [goodLine, badPayloadLine] 1 2 initMetrics).2.successful_requests = 0 :=
  ⟨rfl, rfl, rfl, rfl⟩

end LoadTest
